import Mathlib

/-
Verification of the Almgren-Chriss optimal-execution Monte Carlo engine.

Shallow embedding of the repository sources:
  src/data_structures.py, src/market_components.py, src/market_simulator.py,
  src/impact_models.py, src/strategies.py, src/monte_carlo.py, src/config.py.

Python floats are modelled by real numbers; Gaussian / uniform draws by
explicit caller-supplied streams indexed by seed and draw position (numpy's
seeded generators are deterministic functions of the seed, so a stream
models exactly one seeded generator).  Python expressions that raise
(division by zero) are modelled by Option, none standing for the raised
exception.
-/

namespace AC

/-! ## data_structures.py -/

/-- `MarketState` from src/data_structures.py. -/
structure MarketState where
  time : ℝ
  mid_price : ℝ
  bid : ℝ
  ask : ℝ
  bid_depth : ℝ
  ask_depth : ℝ
  volume : ℝ
  volatility : ℝ
  regime : String

/-- Derived property `spread = ask - bid` (never stored). -/
def MarketState.spread (s : MarketState) : ℝ := s.ask - s.bid

/-- `Regime` from src/data_structures.py: three categorical axes. -/
structure Regime where
  volatility : String
  spread : String
  volume : String
deriving DecidableEq

/-- `Regime.composite`: the axis values joined with underscores. -/
def Regime.composite (r : Regime) : String :=
  r.volatility ++ "_" ++ r.spread ++ "_" ++ r.volume

/-- `CostBreakdown` from src/data_structures.py. -/
structure CostBreakdown where
  spread : ℝ
  temporary : ℝ
  permanent : ℝ
  opportunity : ℝ
  adverse_selection : ℝ

/-- `CostBreakdown.total`: opportunity cost is excluded. -/
def CostBreakdown.total (c : CostBreakdown) : ℝ :=
  c.spread + c.temporary + c.permanent + c.adverse_selection

/-- `CostBreakdown.total_bps`: `(total / notional) * 10000 if notional > 0 else 0`. -/
noncomputable def CostBreakdown.total_bps (c : CostBreakdown) (notional : ℝ) : ℝ :=
  if 0 < notional then c.total / notional * 10000 else 0

/-! ## market_components.py : HestonVolatility -/

/-- State and parameters of `HestonVolatility` (src/market_components.py). -/
structure HestonVolatility where
  v : ℝ
  kappa : ℝ
  theta : ℝ
  sigma_v : ℝ
  rho : ℝ

/-- `HestonVolatility.step(dt)`.  The Gaussian draw `np.random.normal(0, sqrt(dt))`
is the explicit argument `dW`.  Full truncation: `v_plus = max(v, 0)`;
`v <- max(v + dv, 0)`; returns `sqrt(v)` of the updated `v`. -/
noncomputable def HestonVolatility.step (h : HestonVolatility) (dt dW : ℝ) :
    HestonVolatility × ℝ :=
  let v_plus := max h.v 0
  let dv := h.kappa * (h.theta - v_plus) * dt + h.sigma_v * Real.sqrt v_plus * dW
  let v' := max (h.v + dv) 0
  ({ h with v := v' }, Real.sqrt v')

/-- Folding `step` over a finite sequence of `(dt, dW)` pairs. -/
noncomputable def HestonVolatility.stepsFold (h : HestonVolatility)
    (l : List (ℝ × ℝ)) : HestonVolatility :=
  l.foldl (fun s p => (s.step p.1 p.2).1) h

/-! ## market_components.py : RegimeDetector -/

/-- `scipy.stats.percentileofscore(a, score)` with the default `kind='rank'`:
`(right + left + (1 if right > left else 0)) * 50.0 / n` where `left` counts
entries `< score` and `right` counts entries `<= score`. -/
def percentileOfScore {α : Type} [LinearOrderedField α] (a : List α) (score : α) : α :=
  let left : ℕ := a.foldr (fun y n => if y < score then n + 1 else n) 0
  let right : ℕ := a.foldr (fun y n => if y ≤ score then n + 1 else n) 0
  ((right + left + (if left < right then 1 else 0) : ℕ) : α) * 50 / (a.length : α)

/-- A `collections.deque(maxlen=cap)` append: add at the right, drop from the
left once over capacity. -/
def dequeAppend {α : Type} (cap : ℕ) (l : List α) (x : α) : List α :=
  let l' := l ++ [x]
  l'.drop (l'.length - cap)

/-- `RegimeDetector` state (src/market_components.py), generic in the number
type so that the concrete-rational instance is executable. -/
structure RegimeDetector (α : Type) where
  window_size : ℕ
  vol_thresholds : α × α
  spread_thresholds : α × α
  volume_thresholds : α × α
  vol_history : List α
  spread_history : List α
  volume_history : List α

/-- `RegimeDetector()` constructor defaults: window 20, all thresholds (25, 75). -/
def RegimeDetector.default (α : Type) [LinearOrderedField α] : RegimeDetector α :=
  ⟨20, (25, 75), (25, 75), (25, 75), [], [], []⟩

/-- `RegimeDetector._percentile`: 50.0 when the window has fewer than two
entries, otherwise `percentileofscore`. -/
def RegimeDetector.percentileIn {α : Type} [LinearOrderedField α]
    (_d : RegimeDetector α) (value : α) (history : List α) : α :=
  if history.length < 2 then 50 else percentileOfScore history value

/-- `RegimeDetector._bin`: the label vocabulary is dispatched by comparing the
threshold TUPLE with the detector's per-axis threshold tuples, exactly as the
source does (`thresholds == self.vol_thresholds` and so on). -/
def RegimeDetector.bin {α : Type} [LinearOrderedField α] [DecidableEq α]
    (d : RegimeDetector α) (percentile : α) (thresholds : α × α) : String :=
  if percentile < thresholds.1 then
    if thresholds = d.vol_thresholds then "low"
    else if thresholds = d.spread_thresholds then "tight" else "thin"
  else if thresholds.2 < percentile then
    if thresholds = d.vol_thresholds then "high"
    else if thresholds = d.spread_thresholds then "wide" else "heavy"
  else
    if thresholds = d.vol_thresholds then "medium" else "normal"

/-- `RegimeDetector.classify`: append the three observations, return the
default regime until 5 volatility observations exist, otherwise bin the
percentile rank of each observation within its own window. -/
def RegimeDetector.classify {α : Type} [LinearOrderedField α] [DecidableEq α]
    (d : RegimeDetector α) (volatility spread volume : α) :
    RegimeDetector α × Regime :=
  let d' : RegimeDetector α :=
    { d with
      vol_history := dequeAppend d.window_size d.vol_history volatility
      spread_history := dequeAppend d.window_size d.spread_history spread
      volume_history := dequeAppend d.window_size d.volume_history volume }
  if d'.vol_history.length < 5 then (d', ⟨"medium", "normal", "normal"⟩)
  else
    let vol_pct := d'.percentileIn volatility d'.vol_history
    let spread_pct := d'.percentileIn spread d'.spread_history
    let volume_pct := d'.percentileIn volume d'.volume_history
    (d', ⟨d'.bin vol_pct d'.vol_thresholds,
          d'.bin spread_pct d'.spread_thresholds,
          d'.bin volume_pct d'.volume_thresholds⟩)

/-! ## market_simulator.py -/

/-- A scenario dict as built by `inject_scenario` (src/market_simulator.py).
Missing dict keys are `none`; `step` reads them with `.get(key, default)`. -/
structure Scen where
  kind : String
  vol_multiplier : Option ℝ
  spread_multiplier : Option ℝ
  volume_multiplier : Option ℝ
  drift_rate : Option ℝ
  duration : ℤ

/-- The `flash_crash` scenario record. -/
def flashCrashScen : Scen := ⟨"flash_crash", some 10, some 5, some 0.3, none, 10⟩

/-- The `momentum` scenario record. -/
def momentumScen : Scen := ⟨"momentum", none, none, none, some 0.0005, 9999⟩

/-- The `liquidity_drought` scenario record. -/
def liquidityDroughtScen : Scen := ⟨"liquidity_drought", none, none, some 0.1, none, 30⟩

/-- `MarketSimulator` state (src/market_simulator.py). -/
structure MarketSimulator where
  S0 : ℝ
  price : ℝ
  base_vol : ℝ
  base_spread : ℝ
  base_depth : ℝ
  base_adv : ℝ
  impact_gamma : ℝ
  impact_alpha : ℝ
  vol_per_minute : ℝ
  vol_model : HestonVolatility
  regime_detector : RegimeDetector ℝ
  current_time : ℝ
  current_minute : ℕ
  scen : Option Scen
  scen_duration : ℤ

/-- Perturbed construction parameters handed to `MarketSimulator(**params)`
by the Monte Carlo engine (the dict built by `perturb_market_params`). -/
structure MarketParams where
  S0 : ℝ
  base_vol : ℝ
  base_spread : ℝ
  base_depth : ℝ
  base_adv : ℝ
  impact_gamma : ℝ
  impact_alpha : ℝ
  seed : ℕ

/-- `MarketSimulator.__init__`: `vol_per_minute = base_vol / sqrt(390)`; the
Heston process starts at `v0 = theta = vol_per_minute ** 2` with
`kappa = 3.0`, `sigma_v = 0.3`, `rho = -0.7`; no scenario.  (The `seed`
argument seeds numpy's global generator; in this embedding the generator is
the caller-supplied stream selected by that same seed.) -/
noncomputable def mkMarketSimulator (p : MarketParams) : MarketSimulator :=
  let vpm := p.base_vol / Real.sqrt 390
  { S0 := p.S0
    price := p.S0
    base_vol := p.base_vol
    base_spread := p.base_spread
    base_depth := p.base_depth
    base_adv := p.base_adv
    impact_gamma := p.impact_gamma
    impact_alpha := p.impact_alpha
    vol_per_minute := vpm
    vol_model := ⟨vpm ^ 2, 3.0, vpm ^ 2, 0.3, -0.7⟩
    regime_detector := RegimeDetector.default ℝ
    current_time := 0
    current_minute := 0
    scen := none
    scen_duration := 0 }

/-- `_intraday_volume_pattern`: `base_adv / 390 * (1 + |t - 0.5|)` with
`t = minute_of_day / 390`. -/
noncomputable def intradayVolumePattern (base_adv : ℝ) (minute_of_day : ℕ) : ℝ :=
  let t : ℝ := (minute_of_day : ℝ) / 390
  base_adv / 390 * (1 + |t - 0.5|)

/-- `_intraday_spread_pattern`: `base_spread * (1.2 - 0.4 * |t - 0.5|)`. -/
noncomputable def intradaySpreadPattern (base_spread : ℝ) (minute_of_day : ℕ) : ℝ :=
  let t : ℝ := (minute_of_day : ℝ) / 390
  base_spread * (1.2 - 0.4 * |t - 0.5|)

/-- The scenario block of `MarketSimulator.step`: while a scenario is active
and its remaining duration is positive, multiply volatility, spread and
volume by the scenario's multipliers (default 1.0) and decrement the
duration. -/
def scenAdjust (scen : Option Scen) (dur : ℤ) (cv bs ev : ℝ) : ℝ × ℝ × ℝ × ℤ :=
  match scen with
  | some s =>
      if 0 < dur then
        (cv * s.vol_multiplier.getD 1, bs * s.spread_multiplier.getD 1,
         ev * s.volume_multiplier.getD 1, dur - 1)
      else (cv, bs, ev, dur)
  | none => (cv, bs, ev, dur)

/-- `MarketSimulator.step(dt, external_order_size)`.  The two Gaussian draws
of the step (for the volatility process and for the price) are the explicit
arguments `dW_vol` and `dW_price`.  Returns the updated simulator and the
emitted `MarketState`. -/
noncomputable def MarketSimulator.step (m : MarketSimulator) (dt : ℝ)
    (dW_vol dW_price : ℝ) (external_order_size : ℝ) :
    MarketSimulator × MarketState :=
  let time' := m.current_time + dt
  let minute := m.current_minute + 1
  let expected_volume0 := intradayVolumePattern m.base_adv (minute % 390)
  let base_spread0 := intradaySpreadPattern m.base_spread (minute % 390)
  let vres := m.vol_model.step dt dW_vol
  let adj := scenAdjust m.scen m.scen_duration vres.2 base_spread0 expected_volume0
  let current_vol := adj.1
  let base_spread1 := adj.2.1
  let expected_volume := adj.2.2.1
  let dur' := adj.2.2.2
  let drift : ℝ :=
    match m.scen with
    | some s => if s.kind = "momentum" then s.drift_rate.getD 0 * m.price * dt else 0
    | none => 0
  let dP := 0.5 * (m.S0 - m.price) * dt + current_vol * m.price * dW_price + drift
  let price1 := m.price + dP
  let participation :=
    if external_order_size ≠ 0 then
      |external_order_size| / max expected_volume 1
    else 0
  let price2 :=
    if external_order_size ≠ 0 then
      price1 + Real.sign external_order_size *
        (m.impact_gamma * participation ^ m.impact_alpha * current_vol * price1)
    else price1
  let spread0 := base_spread1 * (1 + 1.5 * current_vol / m.vol_per_minute)
  let spread1 := if 0 < |external_order_size| then spread0 * (1 + 0.5 * participation)
    else spread0
  let depth := m.base_depth / (1 + 0.5 * |external_order_size| / max expected_volume 1)
  let cls := m.regime_detector.classify current_vol (spread1 / price2) expected_volume
  ({ m with
      price := price2
      vol_model := vres.1
      regime_detector := cls.1
      current_time := time'
      current_minute := minute
      scen_duration := dur' },
   { time := time'
     mid_price := price2
     bid := price2 - spread1 / 2
     ask := price2 + spread1 / 2
     bid_depth := depth
     ask_depth := depth
     volume := expected_volume
     volatility := current_vol
     regime := cls.2.composite })

/-- `MarketSimulator.inject_scenario(scenario_type)`: install one of the three
fixed scenario records and its duration; unknown identifiers are a no-op. -/
def MarketSimulator.injectScen (m : MarketSimulator) (s : String) : MarketSimulator :=
  if s = "flash_crash" then { m with scen := some flashCrashScen, scen_duration := 10 }
  else if s = "momentum" then { m with scen := some momentumScen, scen_duration := 9999 }
  else if s = "liquidity_drought" then
    { m with scen := some liquidityDroughtScen, scen_duration := 30 }
  else m

/-- The simulator state after `k` plain steps (dt = 1/390, no external order),
driven by the stream `dWs` of Gaussian pairs (volatility draw, price draw). -/
noncomputable def iterState (m : MarketSimulator) (dWs : ℕ → ℝ × ℝ) : ℕ → MarketSimulator
  | 0 => m
  | k + 1 => ((iterState m dWs k).step (1 / 390) (dWs k).1 (dWs k).2 0).1

/-- The `MarketState` emitted by the `(k+1)`-th plain step. -/
noncomputable def outputAt (m : MarketSimulator) (dWs : ℕ → ℝ × ℝ) (k : ℕ) : MarketState :=
  ((iterState m dWs k).step (1 / 390) (dWs k).1 (dWs k).2 0).2

/-! ## impact_models.py -/

/-- `ImpactModel` (src/impact_models.py).  `temp_decay_rate` is
`log(2) / temp_half_life` when the half-life is positive and `float('inf')`
otherwise; infinity is modelled as `none`. -/
structure ImpactModel where
  temp_gamma : ℝ
  temp_alpha : ℝ
  perm_eta : ℝ
  perm_beta : ℝ
  temp_decay_rate : Option ℝ

/-- `ImpactModel.__init__`. -/
noncomputable def mkImpactModel (temp_gamma temp_alpha perm_eta perm_beta
    temp_half_life : ℝ) : ImpactModel :=
  ⟨temp_gamma, temp_alpha, perm_eta, perm_beta,
   if 0 < temp_half_life then some (Real.log 2 / temp_half_life) else none⟩

/-- `temporary_impact_instantaneous`: zero when the trade size or the volume
is zero, otherwise `gamma * participation^alpha * volatility * price * |size|`
with `participation = |size| / volume`. -/
noncomputable def ImpactModel.temporary_impact_instantaneous (im : ImpactModel)
    (trade_size volume volatility price : ℝ) : ℝ :=
  if trade_size = 0 ∨ volume = 0 then 0
  else
    let participation := |trade_size| / volume
    im.temp_gamma * participation ^ im.temp_alpha * volatility * price * |trade_size|

/-- `temporary_impact_with_decay`: sum over the traded periods of the
instantaneous impact scaled by
`(1 - exp(-rate * remaining)) / (rate * remaining)` (`1.0` for an infinite
rate), `remaining = T - t`. -/
noncomputable def ImpactModel.temporary_impact_with_decay (im : ImpactModel)
    (trade_sizes volumes volatilities prices : List ℝ) : ℝ :=
  let T := trade_sizes.length
  (List.range T).foldl
    (fun acc t =>
      if trade_sizes.getD t 0 = 0 then acc
      else
        let inst := im.temporary_impact_instantaneous (trade_sizes.getD t 0)
          (volumes.getD t 0) (volatilities.getD t 0) (prices.getD t 0)
        let remaining : ℝ := (T : ℝ) - (t : ℝ)
        let decay_factor :=
          match im.temp_decay_rate with
          | some rate =>
              if 0 < remaining then
                (1 - Real.exp (-(rate * remaining))) / (rate * remaining)
              else 1
          | none => 1
        acc + inst * decay_factor)
    0

/-- `permanent_impact`: zero when the total size or the daily volume is zero,
otherwise `eta * participation^beta * price * |total_size|` with
`participation = |total_size| / daily_volume`. -/
noncomputable def ImpactModel.permanent_impact (im : ImpactModel)
    (total_size daily_volume price : ℝ) : ℝ :=
  if total_size = 0 ∨ daily_volume = 0 then 0
  else
    let participation := |total_size| / daily_volume
    im.perm_eta * participation ^ im.perm_beta * price * |total_size|

/-- `np.mean` of a list (empty lists are never averaged on the paths the
claims exercise; Lean's `0 / 0 = 0` stands in for numpy's NaN there). -/
noncomputable def npMean (l : List ℝ) : ℝ := l.sum / (l.length : ℝ)

/-- `CostModel.compute_costs(trajectory, states, arrival_price)`
(src/impact_models.py lines 66-119). -/
noncomputable def computeCosts (im : ImpactModel) (trajectory : List ℝ)
    (states : List MarketState) (arrival_price : ℝ) : CostBreakdown :=
  let total_shares := trajectory.sum
  if total_shares = 0 then ⟨0, 0, 0, 0, 0⟩
  else
    let spread_cost := ((trajectory.zip states).map
      (fun p => 0.5 * p.2.spread * |p.1|)).sum
    let temp_impact := im.temporary_impact_with_decay trajectory
      (states.map (fun s => s.volume)) (states.map (fun s => s.volatility))
      (states.map (fun s => s.mid_price))
    let avg_daily_volume := npMean (states.map (fun s => s.volume)) * (states.length : ℝ)
    let perm_impact := im.permanent_impact total_shares avg_daily_volume arrival_price
    let exec_prices := ((trajectory.zip states).map
      (fun p =>
        if 0 < p.1 then List.replicate ⌊|p.1|⌋₊ p.2.ask
        else if p.1 < 0 then List.replicate ⌊|p.1|⌋₊ p.2.bid
        else [])).flatten
    let vwap := if exec_prices = [] then arrival_price else npMean exec_prices
    let implementation_shortfall := (vwap - arrival_price) * total_shares
    let opportunity_cost := max 0 implementation_shortfall
    let final_price := match states.getLast? with
      | some s => s.mid_price
      | none => arrival_price
    let post_trade_drift := (final_price - vwap) * total_shares
    let adverse_selection :=
      if 0 < total_shares then max 0 (-post_trade_drift) else max 0 post_trade_drift
    ⟨spread_cost, temp_impact, perm_impact, opportunity_cost, adverse_selection⟩

/-! ## strategies.py : trajectory generation -/

/-- The closed set of strategy variants (src/strategies.py). -/
inductive Strategy where
  | naive : Strategy
  | twap : Strategy
  | vwap : Strategy
  | almgrenChriss (urgency : ℝ) : Strategy

/-- Strategy display names (`self.name`). -/
def Strategy.name : Strategy → String
  | .naive => "Naive"
  | .twap => "TWAP"
  | .vwap => "VWAP"
  | .almgrenChriss _ => "Almgren-Chriss"

/-- `NaiveStrategy.generate_trajectory`: the whole size in the first period,
zero elsewhere.  (For `T = 0` the Python raises IndexError; the claims only
speak about `T >= 1`.) -/
def naiveTrajectory (total_size : ℝ) (T : ℕ) : List ℝ :=
  match T with
  | 0 => []
  | n + 1 => total_size :: List.replicate n 0

/-- `TWAPStrategy.generate_trajectory`: `total_size / T` every period. -/
noncomputable def twapTrajectory (total_size : ℝ) (T : ℕ) : List ℝ :=
  List.replicate T (total_size / (T : ℝ))

/-- `np.linspace(0, 1, T)` at index `i`: `0` for a single point, else
`i / (T - 1)`. -/
noncomputable def linspace01 (T i : ℕ) : ℝ :=
  if T ≤ 1 then 0 else (i : ℝ) / ((T : ℝ) - 1)

/-- `VWAPStrategy._forecast_volume_profile`: the U-shape `1 + |t - 0.5|`. -/
noncomputable def vwapProfile (T : ℕ) : List ℝ :=
  List.ofFn fun i : Fin T => 1 + |linspace01 T i - 0.5|

/-- `VWAPStrategy.generate_trajectory`: weights proportional to the profile,
scaled by the total size, rescaled when the floating drift exceeds 1e-6. -/
noncomputable def vwapTrajectory (total_size : ℝ) (T : ℕ) : List ℝ :=
  let profile := vwapProfile T
  let weights := profile.map (fun p => p / profile.sum)
  let trajectory := weights.map (fun w => total_size * w)
  let actual_sum := trajectory.sum
  if 1e-6 < |actual_sum - total_size| then
    trajectory.map (fun n => n * total_size / actual_sum)
  else trajectory

/-- `AlmgrenChrissStrategy.generate_trajectory`: urgency clamped to
`[0.1, 10]`, `kappa = urgency / T`, remaining inventory
`X_t = total_size * sinh(kappa * (T - t)) / sinh(urgency)`, per-period trade
`max(0, X_t - X_(t+1))`, with the final period absorbing the exact remainder,
then a proportional rescale when the drift exceeds 1e-6 and the raw sum is
positive. -/
noncomputable def almgrenChrissTrajectory (urgency0 total_size : ℝ) (T : ℕ) : List ℝ :=
  let urgency := max 0.1 (min urgency0 10)
  let kappa := urgency / (T : ℝ)
  let X : ℕ → ℝ := fun t =>
    total_size * Real.sinh (kappa * ((T : ℝ) - (t : ℝ))) / Real.sinh urgency
  match T with
  | 0 => []
  | n + 1 =>
    let head := List.ofFn fun t : Fin n => max 0 (X t - X (t + 1))
    let trajectory := head ++ [total_size - head.sum]
    let actual_sum := trajectory.sum
    if 1e-6 < |actual_sum - total_size| ∧ 0 < actual_sum then
      trajectory.map (fun x => x * total_size / actual_sum)
    else trajectory

/-- `generate_trajectory` dispatched over the strategy variants. -/
noncomputable def Strategy.generate_trajectory : Strategy → ℝ → ℕ → List ℝ
  | .naive, total_size, T => naiveTrajectory total_size T
  | .twap, total_size, T => twapTrajectory total_size T
  | .vwap, total_size, T => vwapTrajectory total_size T
  | .almgrenChriss urgency, total_size, T => almgrenChrissTrajectory urgency total_size T

/-! ## strategies.py : the shared execution driver -/

/-- The list comprehension
`[abs(n)/s.volume for n, s in zip(trajectory, states) if s.volume > 0]`. -/
noncomputable def participationList (trajectory : List ℝ) (states : List MarketState) :
    List ℝ :=
  (trajectory.zip states).foldr
    (fun p acc => if 0 < p.2.volume then (|p.1| / p.2.volume) :: acc else acc) []

/-- The metrics entry `avg_participation` as the source computes it:
`np.mean` over the periods whose VOLUME is positive. -/
noncomputable def avgParticipation (trajectory : List ℝ) (states : List MarketState) : ℝ :=
  npMean (participationList trajectory states)

/-- The metrics entry `execution_periods`:
`len([n for n in trajectory if n != 0])`. -/
noncomputable def executionPeriods (trajectory : List ℝ) : ℕ :=
  (trajectory.foldr (fun n acc => if n ≠ 0 then n :: acc else acc) []).length

/-- The metrics dict built by `BaseStrategy.execute`. -/
structure Metrics where
  total_cost_bps : ℝ
  avg_participation : ℝ
  execution_periods : ℕ
  arrival_price : ℝ
  final_price : ℝ

/-- `ExecutionResult` (src/data_structures.py). -/
structure ExecutionResult where
  strategy : String
  trajectory : List ℝ
  market_states : List MarketState
  costs : CostBreakdown
  metrics : Metrics
  simulation_id : ℕ
  arrival_price : ℝ

/-- The state-collecting loop of `execute`: step the simulator once per
trajectory entry (dt = 1/390), feeding it that period's size; the Gaussian
pairs come from `stream` in order. -/
noncomputable def execLoop (sim : MarketSimulator) (stream : ℕ → ℝ × ℝ) :
    List ℝ → ℕ → MarketSimulator × List MarketState
  | [], _ => (sim, [])
  | n_t :: rest, idx =>
    let r := sim.step (1 / 390) (stream idx).1 (stream idx).2 n_t
    let tail := execLoop r.1 stream rest (idx + 1)
    (tail.1, r.2 :: tail.2)

/-- `BaseStrategy.execute(total_size, T, market_sim, cost_model, simulation_id)`. -/
noncomputable def Strategy.execute (s : Strategy) (total_size : ℝ) (T : ℕ)
    (market_sim : MarketSimulator) (im : ImpactModel) (stream : ℕ → ℝ × ℝ)
    (simulation_id : ℕ) : ExecutionResult :=
  let arrival_price := market_sim.price
  let trajectory := s.generate_trajectory total_size T
  let run := execLoop market_sim stream trajectory 0
  let states := run.2
  let costs := computeCosts im trajectory states arrival_price
  let notional := arrival_price * total_size
  let final_price := match states.getLast? with
    | some st => st.mid_price
    | none => arrival_price
  { strategy := s.name
    trajectory := trajectory
    market_states := states
    costs := costs
    metrics :=
      { total_cost_bps := costs.total_bps notional
        avg_participation := avgParticipation trajectory states
        execution_periods := executionPeriods trajectory
        arrival_price := arrival_price
        final_price := final_price }
    simulation_id := simulation_id
    arrival_price := arrival_price }

/-! ## config.py and monte_carlo.py -/

/-- `base_seed = 42` (src/config.py). -/
def base_seed : ℕ := 42

/-- `MonteCarloConfig` (src/config.py): the fields the engine reads. -/
structure MonteCarloConfig where
  base_price : ℝ
  base_vol : ℝ
  base_spread : ℝ
  base_depth : ℝ
  base_adv : ℝ
  temp_gamma : ℝ
  temp_alpha : ℝ
  perm_eta : ℝ
  perm_beta : ℝ
  temp_impact_half_life : ℝ
  order_size : ℝ
  execution_periods : ℕ
  vol_perturbation : ℝ
  spread_perturbation : ℝ
  depth_perturbation : ℝ

/-- `MonteCarloSimulator.perturb_market_params(seed)`: three independent
uniform multiplicative perturbations drawn from `np.random.RandomState(seed)`.
`unif seed k` is the k-th U[0,1) draw of the generator seeded with `seed`, so
`rng.uniform(-b, b) = -b + 2 * b * u`. -/
def perturbMarketParams (unif : ℕ → ℕ → ℝ) (cfg : MonteCarloConfig) (seed : ℕ) :
    MarketParams :=
  let vol_mult := 1 + (-cfg.vol_perturbation + 2 * cfg.vol_perturbation * unif seed 0)
  let spread_mult := 1 + (-cfg.spread_perturbation + 2 * cfg.spread_perturbation * unif seed 1)
  let depth_mult := 1 + (-cfg.depth_perturbation + 2 * cfg.depth_perturbation * unif seed 2)
  { S0 := cfg.base_price
    base_vol := cfg.base_vol * vol_mult
    base_spread := cfg.base_spread * spread_mult
    base_depth := cfg.base_depth * depth_mult
    base_adv := cfg.base_adv
    impact_gamma := cfg.temp_gamma
    impact_alpha := cfg.temp_alpha
    seed := seed }

/-- The market simulator constructed inside `run_single_simulation` for trial
`simulation_id`: built from the perturbed params of seed
`base_seed + simulation_id` and scenario-injected.  Note that the strategy is
NOT an argument: the simulator a trial sees is the same for every strategy. -/
noncomputable def simUsed (unif : ℕ → ℕ → ℝ) (cfg : MonteCarloConfig)
    (simulation_id : ℕ) (scen : Option String) : MarketSimulator :=
  let m0 := mkMarketSimulator (perturbMarketParams unif cfg (base_seed + simulation_id))
  match scen with
  | some s => m0.injectScen s
  | none => m0

/-- The impact model constructed inside `run_single_simulation`. -/
noncomputable def impactUsed (cfg : MonteCarloConfig) : ImpactModel :=
  mkImpactModel cfg.temp_gamma cfg.temp_alpha cfg.perm_eta cfg.perm_beta
    cfg.temp_impact_half_life

/-- `MonteCarloSimulator.run_single_simulation(strategy, simulation_id,
scenario)`.  `gauss seed` is the Gaussian pair stream of numpy's global
generator after `np.random.seed(seed)`; the simulator's constructor seeds it
with the trial seed `base_seed + simulation_id`. -/
noncomputable def runSingleSimulation (unif : ℕ → ℕ → ℝ) (gauss : ℕ → ℕ → ℝ × ℝ)
    (cfg : MonteCarloConfig) (strategy : Strategy) (simulation_id : ℕ)
    (scen : Option String) : ExecutionResult :=
  strategy.execute cfg.order_size cfg.execution_periods
    (simUsed unif cfg simulation_id scen) (impactUsed cfg)
    (gauss (base_seed + simulation_id)) simulation_id

/-- Division as Python evaluates it on plain floats: raising (modelled as
`none`) when the denominator is zero. -/
noncomputable def pyDiv (x y : ℝ) : Option ℝ :=
  if y = 0 then none else some (x / y)

/-- One term of the per-component mean-bps aggregation in `run_monte_carlo`
(src/monte_carlo.py lines 82-101):
`(component / (arrival_price * order_size)) * 10000`, with no guard on the
notional. -/
noncomputable def componentBps (component arrival_price order_size : ℝ) : Option ℝ :=
  (pyDiv component (arrival_price * order_size)).map (fun x => x * 10000)

/-- The per-strategy aggregate fields involved in the TWAP benchmark step of
`run_monte_carlo` (a projection of `MonteCarloResults`). -/
structure MCAggregate where
  strategy : String
  mean_cost : ℝ
  std_cost : ℝ
  risk_adjusted_savings : ℝ

/-- An aggregate as first constructed by `run_monte_carlo`
(line 103: `risk_adjusted_savings = 0.0`). -/
def mkAggregate (strategy : String) (mean_cost std_cost : ℝ) : MCAggregate :=
  ⟨strategy, mean_cost, std_cost, 0⟩

/-- The post-batch TWAP benchmark step of `run_monte_carlo` (lines 124-132):
if a strategy named TWAP exists, every other strategy with positive standard
deviation gets `(TWAP.mean - mean) / std`; everything else is untouched. -/
noncomputable def applyRiskAdjustment (results : List MCAggregate) : List MCAggregate :=
  match results.find? (fun r => r.strategy == "TWAP") with
  | none => results
  | some twap =>
      results.map (fun r =>
        if r.strategy = "TWAP" then r
        else if 0 < r.std_cost then
          { r with risk_adjusted_savings := (twap.mean_cost - r.mean_cost) / r.std_cost }
        else r)

/-! ## Theorems -/

/-- Claim C9: for every CostBreakdown, the derived total equals
spread + temporary + permanent + adverse_selection (opportunity cost is
excluded), and total_bps(notional) equals total / notional * 10000 when
notional > 0 and equals 0 whenever notional <= 0. -/
theorem costBreakdown_total_and_bps (c : CostBreakdown) (notional : ℝ) :
    c.total = c.spread + c.temporary + c.permanent + c.adverse_selection ∧
    (0 < notional → c.total_bps notional = c.total / notional * 10000) ∧
    (notional ≤ 0 → c.total_bps notional = 0) := by
  refine ⟨rfl, fun h => ?_, fun h => ?_⟩
  · simp [CostBreakdown.total_bps, h]
  · simp [CostBreakdown.total_bps, not_lt.mpr h]

/-- Witness for C9 at a concrete breakdown and a non-positive notional. -/
theorem costBreakdown_total_and_bps_witness :
    (CostBreakdown.mk 1 2 3 4 5).total_bps (-1) = 0 :=
  (costBreakdown_total_and_bps ⟨1, 2, 3, 4, 5⟩ (-1)).2.2 (by norm_num)

/-- Claim C6: for every parameterization with non-negative initial variance
and every finite sequence of steps with positive dt and arbitrary Gaussian
increments, the internal variance is never negative, and step returns the
square root of the updated variance. -/
theorem heston_variance_nonneg (h : HestonVolatility) (l : List (ℝ × ℝ))
    (h0 : 0 ≤ h.v) (hdt : ∀ p ∈ l, 0 < p.1) :
    0 ≤ (h.stepsFold l).v ∧
      ∀ dt dW, (h.step dt dW).2 = Real.sqrt (h.step dt dW).1.v := by
  refine ⟨?_, fun dt dW => rfl⟩
  induction l generalizing h with
  | nil => exact h0
  | cons p rest ih =>
      have hstep : 0 ≤ ((h.step p.1 p.2).1).v := le_max_right _ _
      have : (h.stepsFold (p :: rest)) = ((h.step p.1 p.2).1).stepsFold rest := rfl
      rw [this]
      exact ih _ hstep (fun q hq => hdt q (List.mem_cons_of_mem _ hq))

/-- Witness for C6: the default-parameter process stepped once. -/
theorem heston_variance_nonneg_witness :
    0 ≤ ((HestonVolatility.mk 0.0004 3 0.0004 0.3 (-0.7)).stepsFold [(1 / 390, 0)]).v :=
  (heston_variance_nonneg ⟨0.0004, 3, 0.0004, 0.3, -0.7⟩ [(1 / 390, 0)]
    (by norm_num)
    (by intro q hq; simp only [List.mem_singleton] at hq; subst hq; norm_num)).1

/-- Claim C10: whenever the signed trade sizes sum to zero, even with
nonzero trades that net out, compute_costs returns the all-zero breakdown. -/
theorem computeCosts_zero_net (im : ImpactModel) (trajectory : List ℝ)
    (states : List MarketState) (arrival_price : ℝ)
    (h : trajectory.sum = 0) :
    computeCosts im trajectory states arrival_price = ⟨0, 0, 0, 0, 0⟩ := by
  simp [computeCosts, h]

/-- Witness for C10: an equal buy and sell nets to zero and is costed at
zero despite the trading activity. -/
theorem computeCosts_zero_net_witness :
    computeCosts (mkImpactModel 0.1 0.65 0.03 0.42 10) [100, -100] [] 50 =
      ⟨0, 0, 0, 0, 0⟩ :=
  computeCosts_zero_net _ _ _ _ (by norm_num)

/-- Amended claim C8: the volume denominator of the instantaneous temporary
impact, the daily-volume denominator of the permanent impact and the notional
of CostBreakdown.total_bps are guarded to 0; but the per-component mean-bps
normalization inside run_monte_carlo divides with NO guard, so a zero
notional there raises (modelled by `none`) instead of evaluating to 0. -/
theorem zero_denominator_guards :
    (∀ im : ImpactModel, ∀ trade_size volatility price : ℝ,
      im.temporary_impact_instantaneous trade_size 0 volatility price = 0) ∧
    (∀ im : ImpactModel, ∀ total_size price : ℝ,
      im.permanent_impact total_size 0 price = 0) ∧
    (∀ c : CostBreakdown, c.total_bps 0 = 0) ∧
    (∀ component order_size : ℝ, componentBps component 0 order_size = none) := by
  refine ⟨fun im ts volat price => ?_, fun im ts price => ?_, fun c => ?_,
    fun component order_size => ?_⟩
  · simp [ImpactModel.temporary_impact_instantaneous]
  · simp [ImpactModel.permanent_impact]
  · simp [CostBreakdown.total_bps]
  · simp [componentBps, pyDiv]

/-- Counterexample to claim C8 as stated: the per-component mean-bps term of
run_monte_carlo at a zero arrival price (hence zero notional) does not
evaluate to 0 — the unguarded float division raises, modelled by `none`. -/
theorem component_bps_zero_notional_raises :
    componentBps 5 0 100000 = none := by
  simp [componentBps, pyDiv]

/-- Claim C2: run_single_simulation is deterministic — in this pure embedding
two runs with identical (strategy, trial index, scenario, configuration, PRNG
streams) are the same term — and for a fixed trial index every strategy
receives the identical perturbed market parameters (simUsed does not take the
strategy as an argument) and the simulator seed base_seed + trialIndex, hence
the identical perturbed-market random path `gauss (base_seed + trialIndex)`. -/
theorem run_single_simulation_det_crn (unif : ℕ → ℕ → ℝ) (gauss : ℕ → ℕ → ℝ × ℝ)
    (cfg : MonteCarloConfig) (simulation_id : ℕ) (scen : Option String) :
    (∀ s : Strategy, runSingleSimulation unif gauss cfg s simulation_id scen =
      runSingleSimulation unif gauss cfg s simulation_id scen) ∧
    (∀ s : Strategy, runSingleSimulation unif gauss cfg s simulation_id scen =
      s.execute cfg.order_size cfg.execution_periods
        (simUsed unif cfg simulation_id scen) (impactUsed cfg)
        (gauss (base_seed + simulation_id)) simulation_id) ∧
    (perturbMarketParams unif cfg (base_seed + simulation_id)).seed =
      base_seed + simulation_id := by
  exact ⟨fun _ => rfl, fun _ => rfl, rfl⟩

/-- Claim C5: after run_monte_carlo's TWAP benchmark step, the TWAP entry's
risk_adjusted_savings stays 0, and every other entry's equals
(TWAP mean - its mean) / its std when its std is positive, else 0.  The
hypotheses record what run_monte_carlo guarantees on entry: every aggregate
is constructed with risk_adjusted_savings = 0, and a TWAP-named entry
exists. -/
theorem risk_adjusted_savings_spec (l : List MCAggregate) (twap : MCAggregate)
    (h0 : ∀ r ∈ l, r.risk_adjusted_savings = 0)
    (hf : l.find? (fun r => r.strategy == "TWAP") = some twap) :
    ∀ r ∈ l, ∃ r' ∈ applyRiskAdjustment l,
      r'.strategy = r.strategy ∧ r'.mean_cost = r.mean_cost ∧
      r'.std_cost = r.std_cost ∧
      r'.risk_adjusted_savings =
        (if r.strategy = "TWAP" then 0
         else if 0 < r.std_cost then (twap.mean_cost - r.mean_cost) / r.std_cost
         else 0) := by
  intro r hr
  unfold applyRiskAdjustment
  rw [hf]
  refine ⟨_, List.mem_map_of_mem _ hr, ?_⟩
  by_cases h1 : r.strategy = "TWAP"
  · simp [h1, h0 r hr]
  · by_cases h2 : 0 < r.std_cost
    · simp [h1, h2]
    · simp [h1, h2, h0 r hr]

/-- Witness for C5 on a concrete two-strategy batch. -/
theorem risk_adjusted_savings_spec_witness :
    ∃ r' ∈ applyRiskAdjustment [mkAggregate ("TWAP") 10 2, mkAggregate ("VWAP") 8 2],
      r'.strategy = (mkAggregate ("VWAP") 8 2).strategy ∧
      r'.mean_cost = (mkAggregate ("VWAP") 8 2).mean_cost ∧
      r'.std_cost = (mkAggregate ("VWAP") 8 2).std_cost ∧
      r'.risk_adjusted_savings =
        (if (mkAggregate ("VWAP") 8 2).strategy = "TWAP" then 0
         else if 0 < (mkAggregate ("VWAP") 8 2).std_cost then
           ((mkAggregate ("TWAP") 10 2).mean_cost -
             (mkAggregate ("VWAP") 8 2).mean_cost) / (mkAggregate ("VWAP") 8 2).std_cost
         else 0) := by
  refine risk_adjusted_savings_spec _ (mkAggregate ("TWAP") 10 2) ?_ ?_ _ ?_
  · intro r hr
    simp only [List.mem_cons, List.not_mem_nil, or_false] at hr
    rcases hr with h | h <;> rw [h] <;> rfl
  · rfl
  · simp [mkAggregate]

/-! Trajectory lemmas for claim C1. -/

/-- The VWAP profile sums to at least the horizon length, hence is positive
for a nonempty horizon. -/
theorem vwapProfile_sum_pos (T : ℕ) (hT : 1 ≤ T) : 0 < (vwapProfile T).sum := by
  rw [vwapProfile, List.sum_ofFn]
  have h2 : ∑ _i : Fin T, (1 : ℝ) ≤ ∑ i : Fin T, (1 + |linspace01 T i - 0.5|) :=
    Finset.sum_le_sum (fun i _ => le_add_of_nonneg_right (abs_nonneg _))
  have h1 : ∑ _i : Fin T, (1 : ℝ) = (T : ℝ) := by simp
  have h0 : (0 : ℝ) < (T : ℝ) := by exact_mod_cast Nat.pos_of_ne_zero (by omega)
  linarith

/-- Rescaling a list of normalized weights by a constant sums to
`c * (sum / S)`. -/
theorem weights_scale_sum (c S : ℝ) (l : List ℝ) :
    ((l.map (fun p => p / S)).map (fun w => c * w)).sum = c * (l.sum / S) := by
  induction l with
  | nil => simp
  | cons x xs ih =>
      simp only [List.map_cons, List.sum_cons, ih]
      ring

/-- The raw VWAP trajectory sums exactly to the total size. -/
theorem vwapTrajectory_sum (total_size : ℝ) (T : ℕ) (hT : 1 ≤ T) :
    (vwapTrajectory total_size T).sum = total_size := by
  have hS : 0 < (vwapProfile T).sum := vwapProfile_sum_pos T hT
  have hsum : (((vwapProfile T).map (fun p => p / (vwapProfile T).sum)).map
      (fun w => total_size * w)).sum = total_size := by
    rw [weights_scale_sum, div_self (ne_of_gt hS), mul_one]
  simp only [vwapTrajectory]
  rw [hsum, sub_self, abs_zero, if_neg (by norm_num)]
  exact hsum

/-- The VWAP trajectory has one entry per period. -/
theorem vwapTrajectory_length (total_size : ℝ) (T : ℕ) (hT : 1 ≤ T) :
    (vwapTrajectory total_size T).length = T := by
  have hS : 0 < (vwapProfile T).sum := vwapProfile_sum_pos T hT
  have hsum : (((vwapProfile T).map (fun p => p / (vwapProfile T).sum)).map
      (fun w => total_size * w)).sum = total_size := by
    rw [weights_scale_sum, div_self (ne_of_gt hS), mul_one]
  simp only [vwapTrajectory]
  rw [hsum, sub_self, abs_zero, if_neg (by norm_num)]
  simp [vwapProfile]

/-- The raw Almgren-Chriss trajectory sums exactly to the total size: the
final period absorbs the remainder. -/
theorem almgrenChrissTrajectory_sum (urgency0 total_size : ℝ) (n : ℕ) :
    (almgrenChrissTrajectory urgency0 total_size (n + 1)).sum = total_size := by
  have hsum : ∀ head : List ℝ, (head ++ [total_size - head.sum]).sum = total_size := by
    intro head
    rw [List.sum_append, List.sum_singleton]
    ring
  simp only [almgrenChrissTrajectory]
  rw [hsum, sub_self, abs_zero, if_neg (by norm_num)]
  exact hsum _

/-- The Almgren-Chriss trajectory has one entry per period. -/
theorem almgrenChrissTrajectory_length (urgency0 total_size : ℝ) (n : ℕ) :
    (almgrenChrissTrajectory urgency0 total_size (n + 1)).length = n + 1 := by
  have hsum : ∀ head : List ℝ, (head ++ [total_size - head.sum]).sum = total_size := by
    intro head
    rw [List.sum_append, List.sum_singleton]
    ring
  simp only [almgrenChrissTrajectory]
  rw [hsum, sub_self, abs_zero, if_neg (by norm_num)]
  simp

/-- Claim C1: for every strategy variant, every totalSize > 0 and every
horizon >= 1, generate_trajectory returns a list of length horizon whose sum
is within 1e-6 of totalSize (in exact arithmetic the sum is exact, so the
drift-rescaling branches are never taken). -/
theorem generate_trajectory_length_sum (s : Strategy) (total_size : ℝ) (T : ℕ)
    (hts : 0 < total_size) (hT : 1 ≤ T) :
    (s.generate_trajectory total_size T).length = T ∧
    |(s.generate_trajectory total_size T).sum - total_size| ≤ 1e-6 := by
  obtain ⟨n, rfl⟩ : ∃ n, T = n + 1 := ⟨T - 1, by omega⟩
  cases s with
  | naive =>
      constructor
      · simp [Strategy.generate_trajectory, naiveTrajectory]
      · simp [Strategy.generate_trajectory, naiveTrajectory, List.sum_replicate]
        norm_num
  | twap =>
      have hn : ((n : ℝ) + 1) ≠ 0 := by positivity
      constructor
      · simp [Strategy.generate_trajectory, twapTrajectory]
      · simp only [Strategy.generate_trajectory, twapTrajectory, List.sum_replicate,
          nsmul_eq_mul, Nat.cast_add, Nat.cast_one]
        rw [mul_div_cancel₀ _ hn]
        norm_num
  | vwap =>
      refine ⟨vwapTrajectory_length total_size (n + 1) hT, ?_⟩
      show |(vwapTrajectory total_size (n + 1)).sum - total_size| ≤ 1e-6
      rw [vwapTrajectory_sum total_size (n + 1) hT]
      norm_num
  | almgrenChriss u =>
      refine ⟨almgrenChrissTrajectory_length u total_size n, ?_⟩
      show |(almgrenChrissTrajectory u total_size (n + 1)).sum - total_size| ≤ 1e-6
      rw [almgrenChrissTrajectory_sum u total_size n]
      norm_num

/-- Witness for C1: TWAP at totalSize 100, horizon 2. -/
theorem generate_trajectory_length_sum_witness :
    (Strategy.twap.generate_trajectory 100 2).length = 2 ∧
    |(Strategy.twap.generate_trajectory 100 2).sum - 100| ≤ 1e-6 :=
  generate_trajectory_length_sum .twap 100 2 (by norm_num) (by norm_num)

/-! Claim C7. -/

/-- Modelled from the claim's words, NOT from the source: the participation
mean taken over exactly the periods whose TRADE SIZE is nonzero. -/
noncomputable def claimedAvgParticipation (trajectory : List ℝ)
    (states : List MarketState) : ℝ :=
  npMean ((trajectory.zip states).foldr
    (fun p acc => if p.1 ≠ 0 then (|p.1| / p.2.volume) :: acc else acc) [])

/-- A concrete market state with volume 10 used to separate the two
participation averages. -/
def stC7 : MarketState := ⟨0, 100, 99, 101, 0, 0, 10, 0.01, "m"⟩

/-- Counterexample to claim C7 as stated: for the trajectory [100, 0] against
two positive-volume states, the source's avg_participation averages over the
positive-VOLUME periods (zero-trade periods contribute 0), giving 5, while
the claim's nonzero-trade average would give 10. -/
theorem avg_participation_counterexample :
    avgParticipation [100, 0] [stC7, stC7] ≠
      claimedAvgParticipation [100, 0] [stC7, stC7] := by
  norm_num [avgParticipation, claimedAvgParticipation, participationList, npMean,
    List.zip, stC7]

/-- Amended claim C7: avg_participation is the arithmetic mean of
|size|/volume over exactly the periods whose VOLUME is positive (a zero-trade
period with positive volume contributes a zero participation to the mean);
execution_periods does equal the count of periods with nonzero trade size. -/
theorem execute_metrics_characterization (trajectory : List ℝ)
    (states : List MarketState) :
    avgParticipation trajectory states =
      npMean (((trajectory.zip states).filter
        (fun p => decide (0 < p.2.volume))).map (fun p => |p.1| / p.2.volume)) ∧
    executionPeriods trajectory = trajectory.countP (fun n => decide (n ≠ 0)) := by
  constructor
  · unfold avgParticipation participationList
    congr 1
    induction trajectory.zip states with
    | nil => rfl
    | cons p l ih =>
        by_cases h : 0 < p.2.volume <;>
          simp [List.filter_cons, h, ih]
  · unfold executionPeriods
    induction trajectory with
    | nil => rfl
    | cons n l ih =>
        by_cases h : n = 0 <;> simp [List.countP_cons, h] <;> simpa using ih

/-! Claim C3. -/

/-- A default-thresholds detector whose windows already hold four
observations per axis (as after four prior classify calls). -/
def detC3 : RegimeDetector ℚ :=
  { RegimeDetector.default ℚ with
    vol_history := [10, 10, 10, 10]
    spread_history := [10, 10, 10, 10]
    volume_history := [10, 10, 10, 10] }

/-- Claim C3 fails on the code: with the default construction all three
threshold tuples equal (25, 75), so `_bin`'s vocabulary dispatch
(`thresholds == self.vol_thresholds`) selects the VOLATILITY vocabulary for
every axis.  At the fifth observation (volatility 10, spread 1, volume 10)
the spread percentile is 20 (below 25) and the volume percentile is 60
(between the thresholds), yet the returned regime is
(medium, low, medium) instead of the documented (medium, tight, normal). -/
theorem classify_default_vocabulary_bug :
    (detC3.classify 10 1 10).2 = ⟨"medium", "low", "medium"⟩ ∧
    (detC3.classify 10 1 10).2.spread ≠ "tight" ∧
    (detC3.classify 10 1 10).2.volume ≠ "normal" := by
  have h : (detC3.classify 10 1 10).2 = ⟨"medium", "low", "medium"⟩ := by
    norm_num [detC3, RegimeDetector.default, RegimeDetector.classify, dequeAppend,
      RegimeDetector.percentileIn, percentileOfScore, RegimeDetector.bin, List.foldr]
  refine ⟨h, ?_, ?_⟩ <;> rw [h] <;> decide

/-! Claim C4. -/

/-- One no-order step, all fields: the emitted volatility, volume and spread
in terms of the scenario adjustment, and the state update (the scenario
record itself and all static base parameters are untouched). -/
theorem step_no_order (m : MarketSimulator) (dt a b : ℝ) :
    ((m.step dt a b 0).2).volatility =
      (scenAdjust m.scen m.scen_duration ((m.vol_model.step dt a).2)
        (intradaySpreadPattern m.base_spread ((m.current_minute + 1) % 390))
        (intradayVolumePattern m.base_adv ((m.current_minute + 1) % 390))).1 ∧
    ((m.step dt a b 0).2).volume =
      (scenAdjust m.scen m.scen_duration ((m.vol_model.step dt a).2)
        (intradaySpreadPattern m.base_spread ((m.current_minute + 1) % 390))
        (intradayVolumePattern m.base_adv ((m.current_minute + 1) % 390))).2.2.1 ∧
    MarketState.spread ((m.step dt a b 0).2) =
      (scenAdjust m.scen m.scen_duration ((m.vol_model.step dt a).2)
        (intradaySpreadPattern m.base_spread ((m.current_minute + 1) % 390))
        (intradayVolumePattern m.base_adv ((m.current_minute + 1) % 390))).2.1 *
      (1 + 1.5 *
        (scenAdjust m.scen m.scen_duration ((m.vol_model.step dt a).2)
          (intradaySpreadPattern m.base_spread ((m.current_minute + 1) % 390))
          (intradayVolumePattern m.base_adv ((m.current_minute + 1) % 390))).1 /
        m.vol_per_minute) ∧
    ((m.step dt a b 0).1).vol_model = (m.vol_model.step dt a).1 ∧
    ((m.step dt a b 0).1).current_minute = m.current_minute + 1 ∧
    ((m.step dt a b 0).1).scen = m.scen ∧
    ((m.step dt a b 0).1).scen_duration =
      (scenAdjust m.scen m.scen_duration ((m.vol_model.step dt a).2)
        (intradaySpreadPattern m.base_spread ((m.current_minute + 1) % 390))
        (intradayVolumePattern m.base_adv ((m.current_minute + 1) % 390))).2.2.2 ∧
    ((m.step dt a b 0).1).base_spread = m.base_spread ∧
    ((m.step dt a b 0).1).base_adv = m.base_adv ∧
    ((m.step dt a b 0).1).vol_per_minute = m.vol_per_minute := by
  refine ⟨?_, ?_, ?_, ?_, ?_, ?_, ?_, ?_, ?_, ?_⟩ <;>
    simp [MarketSimulator.step, MarketState.spread]

/-- Coupling of the flash-crash run and the plain run driven by the same
Gaussian stream: the volatility-process state and the minute counter stay
identical (the scenario multiplies only the EMITTED volatility, not the
internal variance, and the price never feeds back into either), the scenario
record persists with remaining duration `max (10 - k) 0`, and the static
base parameters never change. -/
theorem flash_crash_coupling (p : MarketParams) (dWs : ℕ → ℝ × ℝ) :
    ∀ k : ℕ,
      (iterState ((mkMarketSimulator p).injectScen ("flash_crash")) dWs k).vol_model =
        (iterState (mkMarketSimulator p) dWs k).vol_model ∧
      (iterState ((mkMarketSimulator p).injectScen ("flash_crash")) dWs k).current_minute = k ∧
      (iterState (mkMarketSimulator p) dWs k).current_minute = k ∧
      (iterState ((mkMarketSimulator p).injectScen ("flash_crash")) dWs k).scen =
        some flashCrashScen ∧
      (iterState ((mkMarketSimulator p).injectScen ("flash_crash")) dWs k).scen_duration =
        max (10 - (k : ℤ)) 0 ∧
      (iterState (mkMarketSimulator p) dWs k).scen = none ∧
      (iterState ((mkMarketSimulator p).injectScen ("flash_crash")) dWs k).base_spread =
        p.base_spread ∧
      (iterState (mkMarketSimulator p) dWs k).base_spread = p.base_spread ∧
      (iterState ((mkMarketSimulator p).injectScen ("flash_crash")) dWs k).base_adv =
        p.base_adv ∧
      (iterState (mkMarketSimulator p) dWs k).base_adv = p.base_adv ∧
      (iterState ((mkMarketSimulator p).injectScen ("flash_crash")) dWs k).vol_per_minute =
        p.base_vol / Real.sqrt 390 ∧
      (iterState (mkMarketSimulator p) dWs k).vol_per_minute =
        p.base_vol / Real.sqrt 390 := by
  intro k
  induction k with
  | zero =>
      refine ⟨?_, ?_, ?_, ?_, ?_, ?_, ?_, ?_, ?_, ?_, ?_, ?_⟩ <;>
        simp [iterState, mkMarketSimulator, MarketSimulator.injectScen]
  | succ k ih =>
      obtain ⟨hvm, hmw, hmn, hscw, hdur, hscn, hbsw, hbsn, hadvw, hadvn, hvpmw, hvpmn⟩ := ih
      obtain ⟨-, -, -, hW4, hW5, hW6, hW7, hW8, hW9, hW10⟩ :=
        step_no_order (iterState ((mkMarketSimulator p).injectScen ("flash_crash")) dWs k)
          (1 / 390) (dWs k).1 (dWs k).2
      obtain ⟨-, -, -, hN4, hN5, hN6, hN7, hN8, hN9, hN10⟩ :=
        step_no_order (iterState (mkMarketSimulator p) dWs k)
          (1 / 390) (dWs k).1 (dWs k).2
      have hiterW : iterState ((mkMarketSimulator p).injectScen ("flash_crash")) dWs (k + 1) =
          ((iterState ((mkMarketSimulator p).injectScen ("flash_crash")) dWs k).step
            (1 / 390) (dWs k).1 (dWs k).2 0).1 := rfl
      have hiterN : iterState (mkMarketSimulator p) dWs (k + 1) =
          ((iterState (mkMarketSimulator p) dWs k).step
            (1 / 390) (dWs k).1 (dWs k).2 0).1 := rfl
      rw [hiterW, hiterN]
      refine ⟨?_, ?_, ?_, ?_, ?_, ?_, ?_, ?_, ?_, ?_, ?_, ?_⟩
      · rw [hW4, hN4, hvm]
      · rw [hW5, hmw]
      · rw [hN5, hmn]
      · rw [hW6, hscw]
      · rw [hW7, hscw, hdur]
        by_cases hk : (0:ℤ) < max (10 - (k : ℤ)) 0
        · simp only [scenAdjust, flashCrashScen, if_pos hk]
          push_cast
          omega
        · simp only [scenAdjust, flashCrashScen, if_neg hk]
          push_cast
          omega
      · rw [hN6, hscn]
      · rw [hW8, hbsw]
      · rw [hN8, hbsn]
      · rw [hW9, hadvw]
      · rw [hN9, hadvn]
      · rw [hW10, hvpmw]
      · rw [hN10, hvpmn]

/-- Amended claim C4: with and without a flash-crash injection before the
first step, driven by the identical Gaussian stream and no external orders,
steps 1..10 have volatility ratio exactly 10 and volume ratio exactly 0.3,
and from step 11 onward volatility, volume AND spread coincide; but the
spread ratio during the crash is NOT 5: it satisfies
spread_w * (vpm + 1.5*sigma) = 5 * spread_n * (vpm + 15*sigma) where sigma is
the shared pre-multiplier volatility and vpm the per-minute baseline, because
the 10x volatility multiplier feeds into the spread formula on top of the 5x
spread multiplier. -/
theorem flash_crash_multiplier_effect (p : MarketParams) (dWs : ℕ → ℝ × ℝ) (k : ℕ)
    (hbv : p.base_vol ≠ 0) :
    (k < 10 →
      (outputAt ((mkMarketSimulator p).injectScen ("flash_crash")) dWs k).volatility =
        10 * (outputAt (mkMarketSimulator p) dWs k).volatility ∧
      (outputAt ((mkMarketSimulator p).injectScen ("flash_crash")) dWs k).volume =
        0.3 * (outputAt (mkMarketSimulator p) dWs k).volume ∧
      MarketState.spread (outputAt ((mkMarketSimulator p).injectScen ("flash_crash")) dWs k) *
          (p.base_vol / Real.sqrt 390 +
            1.5 * (outputAt (mkMarketSimulator p) dWs k).volatility) =
        5 * MarketState.spread (outputAt (mkMarketSimulator p) dWs k) *
          (p.base_vol / Real.sqrt 390 +
            15 * (outputAt (mkMarketSimulator p) dWs k).volatility)) ∧
    (10 ≤ k →
      (outputAt ((mkMarketSimulator p).injectScen ("flash_crash")) dWs k).volatility =
        (outputAt (mkMarketSimulator p) dWs k).volatility ∧
      (outputAt ((mkMarketSimulator p).injectScen ("flash_crash")) dWs k).volume =
        (outputAt (mkMarketSimulator p) dWs k).volume ∧
      MarketState.spread (outputAt ((mkMarketSimulator p).injectScen ("flash_crash")) dWs k) =
        MarketState.spread (outputAt (mkMarketSimulator p) dWs k)) := by
  obtain ⟨hvm, hmw, hmn, hscw, hdur, hscn, hbsw, hbsn, hadvw, hadvn, hvpmw, hvpmn⟩ :=
    flash_crash_coupling p dWs k
  obtain ⟨hWvol, hWvolu, hWsp, -, -, -, -, -, -, -⟩ :=
    step_no_order (iterState ((mkMarketSimulator p).injectScen ("flash_crash")) dWs k)
      (1 / 390) (dWs k).1 (dWs k).2
  obtain ⟨hNvol, hNvolu, hNsp, -, -, -, -, -, -, -⟩ :=
    step_no_order (iterState (mkMarketSimulator p) dWs k)
      (1 / 390) (dWs k).1 (dWs k).2
  have houtW : outputAt ((mkMarketSimulator p).injectScen ("flash_crash")) dWs k =
      ((iterState ((mkMarketSimulator p).injectScen ("flash_crash")) dWs k).step
        (1 / 390) (dWs k).1 (dWs k).2 0).2 := rfl
  have houtN : outputAt (mkMarketSimulator p) dWs k =
      ((iterState (mkMarketSimulator p) dWs k).step
        (1 / 390) (dWs k).1 (dWs k).2 0).2 := rfl
  have hsq : Real.sqrt 390 ≠ 0 := ne_of_gt (Real.sqrt_pos.mpr (by norm_num))
  have hvpm : p.base_vol / Real.sqrt 390 ≠ 0 := div_ne_zero hbv hsq
  rw [houtW, houtN, hWvol, hWvolu, hWsp, hNvol, hNvolu, hNsp,
    hvm, hscw, hdur, hscn, hbsw, hbsn, hadvw, hadvn, hvpmw, hvpmn, hmw, hmn]
  constructor
  · intro hk
    have hpos : (0:ℤ) < max (10 - (k : ℤ)) 0 := by omega
    simp only [scenAdjust, flashCrashScen, if_pos hpos, Option.getD_some]
    refine ⟨by ring, by ring, ?_⟩
    field_simp
    ring
  · intro hk
    have hk' : (10:ℤ) ≤ (k : ℤ) := by exact_mod_cast hk
    have hzero : ¬ (0:ℤ) < max (10 - (k : ℤ)) 0 := by omega
    simp [scenAdjust, hzero]

/-- The default construction parameters of MarketSimulator
(S0 100, vol 0.02, spread 0.02, depth 10000, adv 1000000, gamma 0.1,
alpha 0.65). -/
def pC4 : MarketParams := ⟨100, 0.02, 0.02, 10000, 1000000, 0.1, 0.65, 0⟩

/-- Witness for the amended C4 at the default parameters, the zero Gaussian
stream and the first step. -/
theorem flash_crash_multiplier_effect_witness :
    (outputAt ((mkMarketSimulator pC4).injectScen ("flash_crash"))
      (fun _ => (0, 0)) 0).volatility =
      10 * (outputAt (mkMarketSimulator pC4) (fun _ => (0, 0)) 0).volatility :=
  ((flash_crash_multiplier_effect pC4 (fun _ => (0, 0)) 0 (by norm_num [pC4])).1 (by norm_num)).1

/-- A volatility process started at its long-run variance `vpm^2` with a zero
Gaussian increment stays there and emits exactly `vpm`. -/
theorem heston_fixed_point (vpm dt : ℝ) (h : 0 ≤ vpm) :
    ((⟨vpm ^ 2, 3.0, vpm ^ 2, 0.3, -0.7⟩ : HestonVolatility).step dt 0).2 = vpm := by
  simp only [HestonVolatility.step]
  rw [max_eq_left (by positivity : (0:ℝ) ≤ vpm ^ 2)]
  norm_num
  rw [max_eq_left (by positivity : (0:ℝ) ≤ vpm ^ 2), Real.sqrt_sq h]

/-- Counterexample to claim C4 as stated: at the very first flash-crash step
the emitted spread is NOT 5 times the uninjected run's spread (with the zero
Gaussian stream it is 80/12.5 = 6.4 times), because the 10x volatility
multiplier enters the spread formula on top of the 5x spread multiplier. -/
theorem flash_crash_spread_not_5x :
    MarketState.spread (outputAt ((mkMarketSimulator pC4).injectScen ("flash_crash"))
      (fun _ => (0, 0)) 0) ≠
      5 * MarketState.spread (outputAt (mkMarketSimulator pC4) (fun _ => (0, 0)) 0) := by
  have hvpmpos : (0:ℝ) < 0.02 / Real.sqrt 390 := by positivity
  obtain ⟨-, -, hWsp, -, -, -, -, -, -, -⟩ :=
    step_no_order ((mkMarketSimulator pC4).injectScen ("flash_crash")) (1 / 390) 0 0
  obtain ⟨-, -, hNsp, -, -, -, -, -, -, -⟩ :=
    step_no_order (mkMarketSimulator pC4) (1 / 390) 0 0
  have houtW : outputAt ((mkMarketSimulator pC4).injectScen ("flash_crash"))
      (fun _ => (0, 0)) 0 =
      (((mkMarketSimulator pC4).injectScen ("flash_crash")).step (1 / 390) 0 0 0).2 := rfl
  have houtN : outputAt (mkMarketSimulator pC4) (fun _ => (0, 0)) 0 =
      ((mkMarketSimulator pC4).step (1 / 390) 0 0 0).2 := rfl
  rw [houtW, houtN, hWsp, hNsp]
  have hfields : ((mkMarketSimulator pC4).injectScen ("flash_crash")).scen =
        some flashCrashScen ∧
      ((mkMarketSimulator pC4).injectScen ("flash_crash")).scen_duration = 10 ∧
      ((mkMarketSimulator pC4).injectScen ("flash_crash")).vol_model =
        (mkMarketSimulator pC4).vol_model ∧
      ((mkMarketSimulator pC4).injectScen ("flash_crash")).base_spread = 0.02 ∧
      ((mkMarketSimulator pC4).injectScen ("flash_crash")).current_minute = 0 ∧
      ((mkMarketSimulator pC4).injectScen ("flash_crash")).vol_per_minute =
        0.02 / Real.sqrt 390 ∧
      (mkMarketSimulator pC4).scen = none ∧
      (mkMarketSimulator pC4).base_spread = 0.02 ∧
      (mkMarketSimulator pC4).current_minute = 0 ∧
      (mkMarketSimulator pC4).vol_per_minute = 0.02 / Real.sqrt 390 ∧
      (mkMarketSimulator pC4).vol_model =
        ⟨(0.02 / Real.sqrt 390) ^ 2, 3.0, (0.02 / Real.sqrt 390) ^ 2, 0.3, -0.7⟩ := by
    refine ⟨?_, ?_, ?_, ?_, ?_, ?_, ?_, ?_, ?_, ?_, ?_⟩ <;>
      simp [mkMarketSimulator, MarketSimulator.injectScen, pC4]
  obtain ⟨hf1, hf2, hf3, hf4, hf5, hf6, hf7, hf8, hf9, hf10, hf11⟩ := hfields
  rw [hf1, hf2, hf3, hf4, hf5, hf6, hf7, hf8, hf9, hf10, hf11,
    heston_fixed_point _ _ hvpmpos.le]
  simp only [scenAdjust, flashCrashScen, Option.getD_some,
    if_pos (by norm_num : (0:ℤ) < 10)]
  have hB : (0:ℝ) < intradaySpreadPattern 0.02 (1 % 390) := by
    have habs : |((1 % 390 : ℕ) : ℝ) / 390 - 0.5| = 0.5 - 1 / 390 := by
      rw [show ((1 % 390 : ℕ) : ℝ) = 1 by norm_num, abs_of_neg (by norm_num)]
      ring
    simp only [intradaySpreadPattern, habs]
    norm_num
  have hdiv : 1.5 * (0.02 / Real.sqrt 390 * 10) / (0.02 / Real.sqrt 390) = 15 := by
    field_simp
    norm_num
  have hdiv2 : 1.5 * (0.02 / Real.sqrt 390) / (0.02 / Real.sqrt 390) = 1.5 := by
    field_simp
  rw [hdiv, hdiv2]
  intro heq
  nlinarith [heq, hB]

end AC
